import Mathlib

/-!
Verification development for the HTTP-enabled MCP Snowflake server
(`http_server.py`).  The embedding covers the Tool Registry construction
(`MCPHTTPServer.__init__`), the Dispatch Gateway (`MCPHTTPServer.call_tool`),
the tool enumeration (`get_tools_list`), the HTTP endpoint guards over the
global server instance, and the SSE heartbeat stream (`sse_endpoint`).

External collaborator behaviour (the tool handlers, the database client, the
SQL write detector) is abstracted as an environment mapping a handler
reference and the parameters it receives to either a result or a raised
exception (`Except String HandlerResult`).  The Gateway records every handler
invocation it performs, so "no handler is invoked" claims are statable.
-/

namespace MCPSnowflake

/-- JSON-like values: tool input schemas and request arguments are structured
documents of this shape. -/
inductive JsonVal where
  | str (s : String)
  | num (n : Int)
  | bool (b : Bool)
  | null
  | arr (elems : List JsonVal)
  | obj (fields : List (String × JsonVal))

/-- References to the eight handler functions imported from
`src.mcp_snowflake_server.server`.  Their behaviour is external; the Gateway
only resolves and invokes them. -/
inductive HandlerId where
  | handle_list_databases
  | handle_list_schemas
  | handle_list_tables
  | handle_describe_table
  | handle_read_query
  | handle_append_insight
  | handle_write_query
  | handle_create_table
deriving DecidableEq

/-- The `Tool` record: name, description, input schema, handler reference and
tags (`tags` defaults to the empty list, as in the Python `Tool` dataclass). -/
structure Tool where
  name : String
  description : String
  input_schema : JsonVal
  handler : HandlerId
  tags : List String := []

/-- The `exclusion_config` dictionary: database/schema/table name filters
passed to the enumeration handlers. -/
structure ExclusionConfig where
  databases : List String
  schemas : List String
  tables : List String
deriving DecidableEq

/-- The Snowflake database client, opaque to the Gateway: only its identity
(the connection arguments it was built from) matters at this boundary. -/
structure SnowflakeDB where
  connection_args : List (String × String)
deriving DecidableEq

/-- The SQL write-intent classifier, opaque to the Gateway. -/
inductive SQLWriteDetector where
  | mk
deriving DecidableEq

/-- The six read-only catalog entries declared in `MCPHTTPServer.__init__`
(`self.all_tools`), in declaration order. -/
def baseTools : List Tool :=
  [ { name := "list_databases",
      description := "List all available databases in Snowflake",
      input_schema := .obj [("type", .str "object"), ("properties", .obj [])],
      handler := .handle_list_databases },
    { name := "list_schemas",
      description := "List all schemas in a database",
      input_schema := .obj
        [ ("type", .str "object"),
          ("properties", .obj
            [ ("database", .obj
                [ ("type", .str "string"),
                  ("description", .str "Database name to list schemas from") ]) ]),
          ("required", .arr [.str "database"]) ],
      handler := .handle_list_schemas },
    { name := "list_tables",
      description := "List all tables in a specific database and schema",
      input_schema := .obj
        [ ("type", .str "object"),
          ("properties", .obj
            [ ("database", .obj
                [("type", .str "string"), ("description", .str "Database name")]),
              ("schema", .obj
                [("type", .str "string"), ("description", .str "Schema name")]) ]),
          ("required", .arr [.str "database", .str "schema"]) ],
      handler := .handle_list_tables },
    { name := "describe_table",
      description := "Get the schema information for a specific table",
      input_schema := .obj
        [ ("type", .str "object"),
          ("properties", .obj
            [ ("table_name", .obj
                [ ("type", .str "string"),
                  ("description", .str
                    "Fully qualified table name in the format 'database.schema.table'") ]) ]),
          ("required", .arr [.str "table_name"]) ],
      handler := .handle_describe_table },
    { name := "read_query",
      description := "Execute a SELECT query",
      input_schema := .obj
        [ ("type", .str "object"),
          ("properties", .obj
            [ ("query", .obj
                [ ("type", .str "string"),
                  ("description", .str "SELECT SQL query to execute") ]) ]),
          ("required", .arr [.str "query"]) ],
      handler := .handle_read_query },
    { name := "append_insight",
      description := "Add a data insight to the memo",
      input_schema := .obj
        [ ("type", .str "object"),
          ("properties", .obj
            [ ("insight", .obj
                [ ("type", .str "string"),
                  ("description", .str "Data insight discovered from analysis") ]) ]),
          ("required", .arr [.str "insight"]) ],
      handler := .handle_append_insight,
      tags := ["resource_based"] } ]

/-- The two write-capable catalog entries appended when `allow_write` is true,
each tagged `"write"`, in declaration order. -/
def writeTools : List Tool :=
  [ { name := "write_query",
      description := "Execute an INSERT, UPDATE, or DELETE query on the Snowflake database",
      input_schema := .obj
        [ ("type", .str "object"),
          ("properties", .obj
            [ ("query", .obj
                [ ("type", .str "string"),
                  ("description", .str "SQL query to execute") ]) ]),
          ("required", .arr [.str "query"]) ],
      handler := .handle_write_query,
      tags := ["write"] },
    { name := "create_table",
      description := "Create a new table in the Snowflake database",
      input_schema := .obj
        [ ("type", .str "object"),
          ("properties", .obj
            [ ("query", .obj
                [ ("type", .str "string"),
                  ("description", .str "CREATE TABLE SQL statement") ]) ]),
          ("required", .arr [.str "query"]) ],
      handler := .handle_create_table,
      tags := ["write"] } ]

/-- The full catalog of known descriptors: base entries followed by the
write-capable entries. -/
def fullCatalog : List Tool := baseTools ++ writeTools

/-- The server state built by `MCPHTTPServer.__init__`. -/
structure MCPHTTPServer where
  connection_args : List (String × String)
  allow_write : Bool
  exclude_tools : List String
  exclude_json_results : Bool
  exclusion_config : ExclusionConfig
  db : SnowflakeDB
  write_detector : SQLWriteDetector
  all_tools : List Tool
  allowed_tools : List Tool

/-- `MCPHTTPServer.__init__`: build `all_tools` (base catalog, plus the write
tools when `allow_write`), compute `exclude_tags`, and filter to
`allowed_tools`: a tool is retained iff its name is not in `exclude_tools`
and none of its tags is in `exclude_tags`.  (The Python `None` defaults for
`exclude_tools` and `exclusion_config` normalize to the empty list / empty
filter dictionary before this point.) -/
def MCPHTTPServer.init (connection_args : List (String × String))
    (allow_write : Bool) (exclude_tools : List String)
    (exclude_json_results : Bool) (exclusion_config : ExclusionConfig) :
    MCPHTTPServer :=
  let all_tools := baseTools ++ (if allow_write then writeTools else [])
  let exclude_tags : List String := if allow_write then [] else ["write"]
  { connection_args := connection_args
    allow_write := allow_write
    exclude_tools := exclude_tools
    exclude_json_results := exclude_json_results
    exclusion_config := exclusion_config
    db := { connection_args := connection_args }
    write_detector := .mk
    all_tools := all_tools
    allowed_tools := all_tools.filter fun tool =>
      !exclude_tools.contains tool.name
        && !tool.tags.any fun tag => exclude_tags.contains tag }

/-- One content item of an MCP handler response: either it carries a `text`
attribute, or it falls back to its `str(...)` coercion. -/
inductive ContentItem where
  | textContent (text : String)
  | other (coerced : String)

/-- `item.text if hasattr(item, 'text') else str(item)`. -/
def contentText : ContentItem → String
  | .textContent t => t
  | .other c => c

/-- What a handler returns on success: a Python list of content items, or a
non-list value (kept as its `str(...)` coercion, the only view the Gateway
takes of it). -/
inductive HandlerResult where
  | list (items : List ContentItem)
  | scalar (coerced : String)

/-- The parameters a handler receives from `call_tool`: positionally
`(arguments, self.db, self.write_detector, self.allow_write, None)`, then the
keyword arguments (`exclusion_config` only for the enumeration tools). -/
structure HandlerCall where
  arguments : Option JsonVal
  db : SnowflakeDB
  write_detector : SQLWriteDetector
  allow_write : Bool
  server : Option Unit
  exclusion_config : Option ExclusionConfig
  exclude_json_results : Bool

/-- External behaviour of the handlers: invoking a handler either returns a
result or raises an exception carrying a message (`Except.error`). -/
def HandlerEnv : Type := HandlerId → HandlerCall → Except String HandlerResult

/-- The body of a `call_tool` response: `{"result": str}`, `{"result":
[str, ...]}` or `{"error": str}`. -/
inductive DispatchResult where
  | result (payload : String)
  | resultList (payload : List String)
  | error (message : String)

/-- The parameters `call_tool` passes to the resolved handler: the enumeration
tools `list_databases`, `list_schemas`, `list_tables` additionally receive
`exclusion_config`; every tool receives `exclude_json_results`. -/
def MCPHTTPServer.handlerCall (self : MCPHTTPServer) (name : String)
    (arguments : Option JsonVal) : HandlerCall :=
  if name ∈ ["list_databases", "list_schemas", "list_tables"] then
    { arguments := arguments
      db := self.db
      write_detector := self.write_detector
      allow_write := self.allow_write
      server := none
      exclusion_config := some self.exclusion_config
      exclude_json_results := self.exclude_json_results }
  else
    { arguments := arguments
      db := self.db
      write_detector := self.write_detector
      allow_write := self.allow_write
      server := none
      exclusion_config := none
      exclude_json_results := self.exclude_json_results }

/-- `MCPHTTPServer.call_tool`: the Dispatch Gateway.  Returns the response
body together with the list of handler invocations performed (so that
"no handler is invoked" is observable).  Steps: the `exclude_tools`
short-circuit, Registry resolution, invocation with the category-dependent
calling convention, normalization of the result, and conversion of any
raised exception into `{"error": str(e)}`. -/
def MCPHTTPServer.call_tool (self : MCPHTTPServer) (env : HandlerEnv)
    (name : String) (arguments : Option JsonVal) :
    DispatchResult × List (HandlerId × HandlerCall) :=
  if name ∈ self.exclude_tools then
    (.error ("Tool " ++ name ++ " is excluded from this data connection"), [])
  else
    match (self.allowed_tools.find? fun tool => tool.name == name).map Tool.handler with
    | none => (.error ("Unknown tool: " ++ name), [])
    | some handler =>
      let call := self.handlerCall name arguments
      match env handler call with
      | .ok (.list items) => (.resultList (items.map contentText), [(handler, call)])
      | .ok (.scalar s) => (.result s, [(handler, call)])
      | .error e => (.error e, [(handler, call)])

/-- One entry of the `GET /tools` response: the projection of a `Tool` that
crosses the HTTP boundary (no `handler`, no `tags`). -/
structure ToolListEntry where
  name : String
  description : String
  input_schema : JsonVal

/-- `MCPHTTPServer.get_tools_list`: project each allowed tool to
`{name, description, input_schema}`, in Registry order. -/
def MCPHTTPServer.get_tools_list (self : MCPHTTPServer) : List ToolListEntry :=
  self.allowed_tools.map fun tool =>
    { name := tool.name
      description := tool.description
      input_schema := tool.input_schema }

/-- An `HTTPException` raised by an endpoint: transport-level status code and
detail message. -/
structure HTTPException where
  status_code : Nat
  detail : String
deriving DecidableEq

/-- The body of the `GET /tools` response: the tool list under the `tools`
key. -/
structure ToolsResponse where
  tools : List ToolListEntry

/-- The `GET /tools` endpoint over the global `mcp_server` instance
(`None` before the server setup runs): raises HTTP 500 when the server is
not initialized, otherwise returns `{"tools": get_tools_list()}`. -/
def list_tools (mcp_server : Option MCPHTTPServer) :
    Except HTTPException ToolsResponse :=
  match mcp_server with
  | none => .error { status_code := 500, detail := "Server not initialized" }
  | some server => .ok { tools := server.get_tools_list }

/-- The `POST /tools/{tool_name}` endpoint over the global `mcp_server`
instance: raises HTTP 500 when the server is not initialized, otherwise
delegates to the Gateway and returns its result as the response body. -/
def call_tool_endpoint (mcp_server : Option MCPHTTPServer) (env : HandlerEnv)
    (tool_name : String) (arguments : Option JsonVal) :
    Except HTTPException (DispatchResult × List (HandlerId × HandlerCall)) :=
  match mcp_server with
  | none => .error { status_code := 500, detail := "Server not initialized" }
  | some server => .ok (server.call_tool env tool_name arguments)

/-- Events emitted by the `GET /sse` endpoint's `event_stream` generator. -/
inductive SSEEvent where
  | connection (status : String)
  | ping (timestamp : Nat)
deriving DecidableEq

/-- The keep-alive loop of `event_stream`, under an idealized clock (seconds
since connect; yields are instantaneous, `asyncio.sleep(30)` advances the
clock by exactly 30): at clock time `now` the loop yields
`ping(timestamp = now)` and runs its next iteration at `now + 30`.
`pingLoop now k` is the k-th ping yielded from clock time `now` on. -/
def pingLoop (now : Nat) : Nat → SSEEvent
  | 0 => .ping now
  | k + 1 => pingLoop (now + 30) k

/-- The full event sequence of one `event_stream` generator: the connection
event first, then the keep-alive loop started immediately (no sleep before
the first ping). -/
def event_stream : Nat → SSEEvent
  | 0 => .connection "connected"
  | k + 1 => pingLoop 0 k

/-- The idealized clock time at which `event_stream` yields its n-th event:
the connection event and the first ping are yielded at connect time 0; each
later ping follows the previous one after the 30-second sleep. -/
def event_stream_time : Nat → Nat
  | 0 => 0
  | k + 1 => 30 * k

/-- The exclusion-pattern defaults of the startup script
(`start_http_server.py`), used as a concrete configuration for witnesses. -/
def demoCfg : ExclusionConfig :=
  { databases := ["temp"], schemas := ["temp", "information_schema"],
    tables := ["temp"] }

/-- A concrete server: read-only policy with `read_query` excluded
explicitly. -/
def demoServer : MCPHTTPServer :=
  MCPHTTPServer.init [("account", "demo")] false ["read_query"] false demoCfg

/-- A handler environment in which every handler returns a scalar value. -/
def demoEnv : HandlerEnv := fun _ _ => .ok (.scalar "ok")

/-- A handler environment in which every handler raises an exception whose
message is `boom`. -/
def failEnv : HandlerEnv := fun _ _ => .error "boom"

/-- A handler environment in which every handler returns an empty list. -/
def emptyEnv : HandlerEnv := fun _ _ => .ok (.list [])

/-- A handler environment in which every handler returns a two-element list
whose first element carries a `text` attribute and whose second does not. -/
def textEnv : HandlerEnv := fun _ _ =>
  .ok (.list [.textContent "row one", .other "TextContent(no text attr)"])

end MCPSnowflake

namespace MCPSnowflake

/-- A tool named `X` is in a list iff `X` is among the list's names. -/
lemma exists_name_iff (l : List Tool) (X : String) :
    (∃ t ∈ l, t.name = X) ↔ X ∈ l.map Tool.name := by
  simp [List.mem_map]

/-- Membership by name in a filtered tool list, unfolded to membership in the
underlying list plus the predicate. -/
lemma exists_name_filter (l : List Tool) (p : Tool → Bool) (X : String) :
    (∃ t ∈ l.filter p, t.name = X) ↔ ∃ t ∈ l, t.name = X ∧ p t = true := by
  simp [List.mem_filter]
  tauto

/-- The names of the full catalog, in declaration order. -/
lemma catalog_names (X : String) :
    (∃ t ∈ fullCatalog, t.name = X) ↔
      X ∈ ["list_databases", "list_schemas", "list_tables", "describe_table",
           "read_query", "append_insight", "write_query", "create_table"] := by
  rw [exists_name_iff]
  exact Iff.rfl

/-- The names of the base (read-only) catalog, in declaration order. -/
lemma base_names (X : String) :
    (∃ t ∈ baseTools, t.name = X) ↔
      X ∈ ["list_databases", "list_schemas", "list_tables", "describe_table",
           "read_query", "append_insight"] := by
  rw [exists_name_iff]
  exact Iff.rfl

/-- The catalog entries tagged `"write"` are exactly `write_query` and
`create_table`. -/
lemma writeTagged_names (X : String) :
    (∃ t ∈ fullCatalog, t.name = X ∧ "write" ∈ t.tags) ↔
      X = "write_query" ∨ X = "create_table" := by
  simp +decide [fullCatalog, baseTools, writeTools]
  exact or_congr eq_comm eq_comm

/-- No base catalog entry carries the `"write"` tag. -/
lemma base_no_write_tag : ∀ t ∈ baseTools, "write" ∉ t.tags := by decide

/-- Every write catalog entry carries the `"write"` tag. -/
lemma writeTools_write_tag : ∀ t ∈ writeTools, "write" ∈ t.tags := by decide

/-- The Registry filter predicate of `MCPHTTPServer.__init__`, decoded: a
tool is kept iff its name is not excluded and none of its tags is an
excluded tag. -/
lemma keep_iff (ex exTags : List String) (t : Tool) :
    (!ex.contains t.name && !t.tags.any fun tag => exTags.contains tag) = true ↔
      t.name ∉ ex ∧ ∀ tag ∈ t.tags, tag ∉ exTags := by
  simp [List.elem_iff, List.any_eq_true]

/-- Avoiding every tag of a one-element tag list is avoiding its tag. -/
lemma forall_not_singleton {l : List String} {a : String} :
    (∀ x ∈ l, x ∉ [a]) ↔ a ∉ l := by
  simp only [List.mem_singleton]
  constructor
  · intro h ha
    exact h a ha rfl
  · intro h x hx hxa
    exact h (hxa ▸ hx)

/-- C1: For every valid pair (allow_write, exclude_tools), the constructed
Registry (`allowed_tools`) contains a descriptor named `X` iff `X` is in the
full catalog, `X` is not in `exclude_tools`, and (allow_write is true or `X`
is not tagged `"write"`); with allow_write = false and exclude_tools = [] the
Registry is exactly the 6 read-only entries, and with allow_write = true and
exclude_tools = ["create_table"] it is those 6 plus `write_query` (7
entries) without `create_table`, preserving catalog declaration order. -/
theorem registry_membership_policy :
    (∀ (ca : List (String × String)) (aw : Bool) (ex : List String)
        (ejr : Bool) (cfg : ExclusionConfig) (X : String),
      (∃ t ∈ (MCPHTTPServer.init ca aw ex ejr cfg).allowed_tools, t.name = X) ↔
        ((∃ t ∈ fullCatalog, t.name = X) ∧ X ∉ ex ∧
          (aw = true ∨ ¬ ∃ t ∈ fullCatalog, t.name = X ∧ "write" ∈ t.tags)))
    ∧ (MCPHTTPServer.init [] false [] false ⟨[], [], []⟩).allowed_tools.map Tool.name
        = ["list_databases", "list_schemas", "list_tables", "describe_table",
           "read_query", "append_insight"]
    ∧ (MCPHTTPServer.init [] true ["create_table"] false ⟨[], [], []⟩).allowed_tools.map Tool.name
        = ["list_databases", "list_schemas", "list_tables", "describe_table",
           "read_query", "append_insight", "write_query"] := by
  refine ⟨?_, by rfl, by rfl⟩
  intro ca aw ex ejr cfg X
  cases aw
  · rw [show (MCPHTTPServer.init ca false ex ejr cfg).allowed_tools
        = (baseTools ++ []).filter (fun t =>
            !ex.contains t.name
              && !t.tags.any fun tag => (["write"] : List String).contains tag) from rfl]
    rw [exists_name_filter]
    simp only [List.append_nil, keep_iff, forall_not_singleton, Bool.false_eq_true,
      false_or]
    constructor
    · rintro ⟨t, ht, hn, hex, hw⟩
      refine ⟨⟨t, List.mem_append_left _ ht, hn⟩, hn ▸ hex, ?_⟩
      rw [writeTagged_names]
      have hbase : ∃ u ∈ baseTools, u.name = X := ⟨t, ht, hn⟩
      rw [base_names] at hbase
      rintro (h | h) <;> rw [h] at hbase <;> revert hbase <;> decide
    · rintro ⟨⟨t, ht, hn⟩, hex, hw⟩
      rcases List.mem_append.1 ht with hb | hwt
      · exact ⟨t, hb, hn, hn.symm ▸ hex, base_no_write_tag t hb⟩
      · exact absurd ⟨t, ht, hn, writeTools_write_tag t hwt⟩ hw
  · rw [show (MCPHTTPServer.init ca true ex ejr cfg).allowed_tools
        = (baseTools ++ writeTools).filter (fun t =>
            !ex.contains t.name
              && !t.tags.any fun tag => ([] : List String).contains tag) from rfl]
    rw [exists_name_filter]
    simp only [keep_iff, List.not_mem_nil, not_false_eq_true, implies_true, and_true,
      true_or, or_true]
    constructor
    · rintro ⟨t, ht, hn, hex⟩
      exact ⟨⟨t, ht, hn⟩, hn ▸ hex⟩
    · rintro ⟨⟨t, ht, hn⟩, hex⟩
      exact ⟨t, ht, hn, hn.symm ▸ hex⟩

/-- C2: For every name in `exclude_tools`, invoking that name via `call_tool`
returns exactly the error `Tool {name} is excluded from this data connection`
and no handler is invoked (the invocation trace is empty); the check holds
for every server state, before and independently of Registry resolution. -/
theorem call_tool_excluded_short_circuit (srv : MCPHTTPServer) (env : HandlerEnv)
    (name : String) (arguments : Option JsonVal) (h : name ∈ srv.exclude_tools) :
    srv.call_tool env name arguments =
      (.error ("Tool " ++ name ++ " is excluded from this data connection"), []) := by
  simp [MCPHTTPServer.call_tool, h]

/-- Witness for C2: on the demo server, which excludes `read_query`, invoking
`read_query` returns the exclusion error and performs no handler call. -/
theorem call_tool_excluded_short_circuit_witness :
    "read_query" ∈ demoServer.exclude_tools ∧
      demoServer.call_tool demoEnv "read_query" none =
        (.error ("Tool " ++ "read_query" ++ " is excluded from this data connection"), []) :=
  ⟨by decide, call_tool_excluded_short_circuit demoServer demoEnv "read_query" none (by decide)⟩

/-- C3: For every name not in `exclude_tools` and absent from the Registry,
`call_tool` returns exactly the error `Unknown tool: {name}` with no handler
invoked; in particular with allow_write = false, invoking `write_query`
yields `Unknown tool: write_query`, not a policy-specific message. -/
theorem call_tool_unknown_tool :
    (∀ (srv : MCPHTTPServer) (env : HandlerEnv) (name : String) (arguments : Option JsonVal),
      name ∉ srv.exclude_tools → (∀ t ∈ srv.allowed_tools, t.name ≠ name) →
      srv.call_tool env name arguments = (.error ("Unknown tool: " ++ name), []))
    ∧ ∀ (env : HandlerEnv) (arguments : Option JsonVal),
        (MCPHTTPServer.init [] false [] false ⟨[], [], []⟩).call_tool env "write_query" arguments
          = (.error ("Unknown tool: " ++ "write_query"), []) := by
  constructor
  · intro srv env name arguments h1 h2
    have hfind : (srv.allowed_tools.find? fun t => t.name == name) = none := by
      rw [List.find?_eq_none]
      intro t ht
      simpa using h2 t ht
    simp [MCPHTTPServer.call_tool, h1, hfind]
  · intro env arguments
    rfl

/-- Witness for C3: a name that was never cataloged resolves to the unknown
tool error on the demo server. -/
theorem call_tool_unknown_tool_witness :
    demoServer.call_tool demoEnv "no_such_tool" none =
      (.error ("Unknown tool: " ++ "no_such_tool"), []) :=
  call_tool_unknown_tool.1 demoServer demoEnv "no_such_tool" none (by decide) (by decide)

/-- C4: Whenever the resolved handler raises an exception `e`, `call_tool`
catches it and returns the error `str(e)`; and every invocation resolves to
one of the three response shapes (a scalar result, a list result, or an
error) — a handler fault never propagates past `call_tool`. -/
theorem call_tool_catches_handler_exception :
    (∀ (srv : MCPHTTPServer) (env : HandlerEnv) (name : String) (arguments : Option JsonVal)
        (tool : Tool) (e : String),
      name ∉ srv.exclude_tools →
      (srv.allowed_tools.find? fun t => t.name == name) = some tool →
      env tool.handler (srv.handlerCall name arguments) = .error e →
      srv.call_tool env name arguments =
        (.error e, [(tool.handler, srv.handlerCall name arguments)]))
    ∧ ∀ (srv : MCPHTTPServer) (env : HandlerEnv) (name : String) (arguments : Option JsonVal),
        (∃ payload, (srv.call_tool env name arguments).1 = .result payload) ∨
        (∃ payload, (srv.call_tool env name arguments).1 = .resultList payload) ∨
        (∃ message, (srv.call_tool env name arguments).1 = .error message) := by
  constructor
  · intro srv env name arguments tool e h1 h2 h3
    simp [MCPHTTPServer.call_tool, h1, h2, h3]
  · intro srv env name arguments
    rcases h : (srv.call_tool env name arguments).1 with p | l | m
    · exact Or.inl ⟨p, rfl⟩
    · exact Or.inr (Or.inl ⟨l, rfl⟩)
    · exact Or.inr (Or.inr ⟨m, rfl⟩)

/-- Witness for C4: under an environment whose handlers raise `boom`,
invoking `list_databases` on the demo server returns the error `boom`. -/
theorem call_tool_catches_handler_exception_witness :
    demoServer.call_tool failEnv "list_databases" none =
      (.error "boom",
        [(HandlerId.handle_list_databases, demoServer.handlerCall "list_databases" none)]) :=
  call_tool_catches_handler_exception.1 demoServer failEnv "list_databases" none
    { name := "list_databases",
      description := "List all available databases in Snowflake",
      input_schema := .obj [("type", .str "object"), ("properties", .obj [])],
      handler := .handle_list_databases }
    "boom" (by decide) (by rfl) (by rfl)

/-- C5: A successful handler result is normalized: a list becomes a list of
strings, each element contributing its `text` field when it has one and its
string coercion otherwise (`contentText`); a non-list becomes its string
coercion wrapped as a single result. -/
theorem call_tool_normalizes_results :
    (∀ (srv : MCPHTTPServer) (env : HandlerEnv) (name : String) (arguments : Option JsonVal)
        (tool : Tool) (items : List ContentItem),
      name ∉ srv.exclude_tools →
      (srv.allowed_tools.find? fun t => t.name == name) = some tool →
      env tool.handler (srv.handlerCall name arguments) = .ok (.list items) →
      srv.call_tool env name arguments =
        (.resultList (items.map contentText),
          [(tool.handler, srv.handlerCall name arguments)]))
    ∧ (∀ (srv : MCPHTTPServer) (env : HandlerEnv) (name : String) (arguments : Option JsonVal)
        (tool : Tool) (s : String),
      name ∉ srv.exclude_tools →
      (srv.allowed_tools.find? fun t => t.name == name) = some tool →
      env tool.handler (srv.handlerCall name arguments) = .ok (.scalar s) →
      srv.call_tool env name arguments =
        (.result s, [(tool.handler, srv.handlerCall name arguments)]))
    ∧ (∀ t : String, contentText (.textContent t) = t)
    ∧ (∀ c : String, contentText (.other c) = c) := by
  refine ⟨?_, ?_, fun _ => rfl, fun _ => rfl⟩
  · intro srv env name arguments tool items h1 h2 h3
    simp [MCPHTTPServer.call_tool, h1, h2, h3]
  · intro srv env name arguments tool s h1 h2 h3
    simp [MCPHTTPServer.call_tool, h1, h2, h3]

/-- Witness for C5: a handler returning one element with a `text` attribute
and one without yields both strings, in order. -/
theorem call_tool_normalizes_results_witness :
    demoServer.call_tool textEnv "list_databases" none =
      (.resultList ["row one", "TextContent(no text attr)"],
        [(HandlerId.handle_list_databases, demoServer.handlerCall "list_databases" none)]) :=
  call_tool_normalizes_results.1 demoServer textEnv "list_databases" none
    { name := "list_databases",
      description := "List all available databases in Snowflake",
      input_schema := .obj [("type", .str "object"), ("properties", .obj [])],
      handler := .handle_list_databases }
    [.textContent "row one", .other "TextContent(no text attr)"]
    (by decide) (by rfl) (by rfl)

/-- C6: Every resolved invocation performs exactly one handler call, whose
parameters are `(arguments, db, write_detector, allow_write, null server)`
plus `exclude_json_results`; exactly the enumeration tools
`list_databases`, `list_schemas`, `list_tables` additionally receive the
`exclusion_config`, and every other tool does not receive it. -/
theorem call_tool_calling_convention (srv : MCPHTTPServer) (env : HandlerEnv)
    (name : String) (arguments : Option JsonVal) (tool : Tool)
    (h1 : name ∉ srv.exclude_tools)
    (h2 : (srv.allowed_tools.find? fun t => t.name == name) = some tool) :
    (srv.call_tool env name arguments).2
        = [(tool.handler, srv.handlerCall name arguments)]
      ∧ (srv.handlerCall name arguments).arguments = arguments
      ∧ (srv.handlerCall name arguments).db = srv.db
      ∧ (srv.handlerCall name arguments).write_detector = srv.write_detector
      ∧ (srv.handlerCall name arguments).allow_write = srv.allow_write
      ∧ (srv.handlerCall name arguments).server = none
      ∧ (srv.handlerCall name arguments).exclude_json_results = srv.exclude_json_results
      ∧ (name ∈ ["list_databases", "list_schemas", "list_tables"] →
          (srv.handlerCall name arguments).exclusion_config = some srv.exclusion_config)
      ∧ (name ∉ ["list_databases", "list_schemas", "list_tables"] →
          (srv.handlerCall name arguments).exclusion_config = none) := by
  refine ⟨?_, ?_, ?_, ?_, ?_, ?_, ?_, ?_, ?_⟩
  · rcases h3 : env tool.handler (srv.handlerCall name arguments) with e | r
    · simp [MCPHTTPServer.call_tool, h1, h2, h3]
    · rcases r with items | s <;> simp [MCPHTTPServer.call_tool, h1, h2, h3]
  all_goals
    unfold MCPHTTPServer.handlerCall
  · split <;> rfl
  · split <;> rfl
  · split <;> rfl
  · split <;> rfl
  · split <;> rfl
  · split <;> rfl
  · intro h
    rw [if_pos h]
  · intro h
    rw [if_neg h]

/-- Witness for C6: `list_schemas` is an enumeration tool, so its handler
call carries the exclusion configuration. -/
theorem call_tool_calling_convention_witness :
    (demoServer.call_tool demoEnv "list_schemas" none).2
        = [(HandlerId.handle_list_schemas, demoServer.handlerCall "list_schemas" none)]
      ∧ (demoServer.handlerCall "list_schemas" none).exclusion_config
          = some demoServer.exclusion_config :=
  have h := call_tool_calling_convention demoServer demoEnv "list_schemas" none
    { name := "list_schemas",
      description := "List all schemas in a database",
      input_schema := .obj
        [ ("type", .str "object"),
          ("properties", .obj
            [ ("database", .obj
                [ ("type", .str "string"),
                  ("description", .str "Database name to list schemas from") ]) ]),
          ("required", .arr [.str "database"]) ],
      handler := .handle_list_schemas }
    (by decide) (by rfl)
  ⟨h.1, h.2.2.2.2.2.2.2.1 (by decide)⟩

/-- C7: `get_tools_list` returns exactly one entry per Registry descriptor,
in Registry order, projecting name, description and input schema; its
sequence of names equals the Registry's, and its entry type carries no
handler or tags field. -/
theorem get_tools_list_projects_registry (srv : MCPHTTPServer) :
    srv.get_tools_list.length = srv.allowed_tools.length
      ∧ srv.get_tools_list.map ToolListEntry.name = srv.allowed_tools.map Tool.name
      ∧ ∀ i : Nat, srv.get_tools_list[i]? = (srv.allowed_tools[i]?).map fun tool =>
          { name := tool.name, description := tool.description,
            input_schema := tool.input_schema : ToolListEntry } := by
  refine ⟨?_, ?_, ?_⟩
  · simp [MCPHTTPServer.get_tools_list]
  · simp [MCPHTTPServer.get_tools_list, List.map_map]
  · intro i
    simp [MCPHTTPServer.get_tools_list, List.getElem?_map]

/-- C9: While the global server is uninitialized, `GET /tools` and
`POST /tools/{tool_name}` fail with HTTP 500 `Server not initialized` and
delegate to nothing; once a server is installed, both endpoints always
return a normal response (the guard fault never recurs). -/
theorem endpoints_initialization_guard :
    list_tools none = .error { status_code := 500, detail := "Server not initialized" }
      ∧ (∀ (env : HandlerEnv) (name : String) (arguments : Option JsonVal),
          call_tool_endpoint none env name arguments
            = .error { status_code := 500, detail := "Server not initialized" })
      ∧ (∀ srv : MCPHTTPServer, list_tools (some srv) = .ok { tools := srv.get_tools_list })
      ∧ (∀ (srv : MCPHTTPServer) (env : HandlerEnv) (name : String)
            (arguments : Option JsonVal),
          call_tool_endpoint (some srv) env name arguments
            = .ok (srv.call_tool env name arguments)) :=
  ⟨rfl, fun _ _ _ => rfl, fun _ => rfl, fun _ _ _ _ => rfl⟩

/-- C10: A handler returning an empty list yields the success shape with an
empty sequence, not an error; and an error response arises only from the
exclusion check, the unknown-tool check, or a handler exception. -/
theorem call_tool_empty_list_success :
    (∀ (srv : MCPHTTPServer) (env : HandlerEnv) (name : String) (arguments : Option JsonVal)
        (tool : Tool),
      name ∉ srv.exclude_tools →
      (srv.allowed_tools.find? fun t => t.name == name) = some tool →
      env tool.handler (srv.handlerCall name arguments) = .ok (.list []) →
      srv.call_tool env name arguments =
        (.resultList [], [(tool.handler, srv.handlerCall name arguments)]))
    ∧ ∀ (srv : MCPHTTPServer) (env : HandlerEnv) (name : String) (arguments : Option JsonVal)
        (message : String),
        (srv.call_tool env name arguments).1 = .error message →
          (name ∈ srv.exclude_tools
              ∧ message = "Tool " ++ name ++ " is excluded from this data connection")
          ∨ (name ∉ srv.exclude_tools ∧ (∀ t ∈ srv.allowed_tools, t.name ≠ name)
              ∧ message = "Unknown tool: " ++ name)
          ∨ (∃ tool, (srv.allowed_tools.find? fun t => t.name == name) = some tool
              ∧ env tool.handler (srv.handlerCall name arguments) = .error message) := by
  constructor
  · intro srv env name arguments tool h1 h2 h3
    simp [MCPHTTPServer.call_tool, h1, h2, h3]
  · intro srv env name arguments message hres
    by_cases hex : name ∈ srv.exclude_tools
    · simp [MCPHTTPServer.call_tool, hex] at hres
      exact Or.inl ⟨hex, hres.symm⟩
    · rcases hfind : (srv.allowed_tools.find? fun t => t.name == name) with _ | tool
      · simp [MCPHTTPServer.call_tool, hex, hfind] at hres
        refine Or.inr (Or.inl ⟨hex, ?_, hres.symm⟩)
        intro t ht
        have := List.find?_eq_none.mp hfind t ht
        simpa using this
      · rcases henv : env tool.handler (srv.handlerCall name arguments) with e | r
        · simp [MCPHTTPServer.call_tool, hex, hfind, henv] at hres
          exact Or.inr (Or.inr ⟨tool, hfind, by rw [henv, hres]⟩)
        · rcases r with items | s <;>
            simp [MCPHTTPServer.call_tool, hex, hfind, henv] at hres

/-- Witness for C10: a handler returning the empty list yields the empty
success list on the demo server. -/
theorem call_tool_empty_list_success_witness :
    demoServer.call_tool emptyEnv "list_tables" none =
      (.resultList [],
        [(HandlerId.handle_list_tables, demoServer.handlerCall "list_tables" none)]) :=
  call_tool_empty_list_success.1 demoServer emptyEnv "list_tables" none
    { name := "list_tables",
      description := "List all tables in a specific database and schema",
      input_schema := .obj
        [ ("type", .str "object"),
          ("properties", .obj
            [ ("database", .obj
                [("type", .str "string"), ("description", .str "Database name")]),
              ("schema", .obj
                [("type", .str "string"), ("description", .str "Schema name")]) ]),
          ("required", .arr [.str "database", .str "schema"]) ],
      handler := .handle_list_tables }
    (by decide) (by rfl) (by rfl)

/-- Each iteration of the keep-alive loop yields a ping stamped with the
clock value at its start, and iterations are 30 seconds apart. -/
lemma pingLoop_eq (now k : Nat) : pingLoop now k = .ping (now + 30 * k) := by
  induction k generalizing now with
  | zero => simp [pingLoop]
  | succ k ih =>
    rw [pingLoop, ih]
    congr 1
    omega

/-- Counterexample to C8 as stated: the second event of the stream is the
first ping, yielded immediately after the connection event (before any
sleep), so it arrives at clock time 0, not after at least 30 seconds. -/
theorem sse_second_event_immediate :
    event_stream 1 = .ping 0 ∧ event_stream_time 1 = 0 ∧ ¬30 ≤ event_stream_time 1 :=
  ⟨rfl, rfl, by decide⟩

/-- C8 (amended): the stream starts with exactly one connection event,
followed only by pings; each ping is stamped with its emission time; the
first ping is emitted immediately (the second event arrives at the same
instant as the connection event, not after 30 seconds); later pings are
spaced by the fixed 30-second interval; and consecutive ping timestamps are
monotonically non-decreasing. -/
theorem sse_stream_shape :
    event_stream 0 = .connection "connected"
      ∧ (∀ k : Nat, event_stream (k + 1) = .ping (30 * k))
      ∧ (∀ k : Nat, event_stream (k + 1) = .ping (event_stream_time (k + 1)))
      ∧ event_stream_time 1 = event_stream_time 0
      ∧ (∀ k : Nat, event_stream_time (k + 2) = event_stream_time (k + 1) + 30)
      ∧ (∀ (k t t' : Nat), event_stream (k + 1) = .ping t →
          event_stream (k + 2) = .ping t' → t ≤ t') := by
  have hev : ∀ k : Nat, event_stream (k + 1) = .ping (30 * k) := by
    intro k
    rw [event_stream, pingLoop_eq]
    congr 1
    omega
  refine ⟨rfl, hev, fun k => hev k, rfl, fun k => ?_, fun k t t' h h' => ?_⟩
  · rw [event_stream_time, event_stream_time]
    omega
  · rw [hev k] at h
    rw [hev (k + 1)] at h'
    cases h
    cases h'
    omega

/-- Witness for C8 (amended): the first two pings of the stream, with
non-decreasing timestamps. -/
theorem sse_stream_shape_witness :
    event_stream 1 = .ping 0 ∧ event_stream 2 = .ping 30 ∧ (0 : Nat) ≤ 30 :=
  ⟨sse_stream_shape.2.1 0, sse_stream_shape.2.1 1,
    sse_stream_shape.2.2.2.2.2 0 0 30 (sse_stream_shape.2.1 0) (sse_stream_shape.2.1 1)⟩

end MCPSnowflake
